import Mathlib

/-!
Verification of square/password-rotation-lambda.

This file is a shallow embedding of the credential-rotation orchestrator:
the four-phase rotation state machine (`Rotator` in rotate.go) and the
fan-out password-change engine (`mysql.PasswordSetter` in db/mysql).
External collaborators (the AWS Secrets Manager client, the RDS discovery
client, the low-level database client, the user-provided secret setter)
are modelled as oracle parameters: each call the Go code makes to them is
one lookup in an oracle function, and every call the code issues is
recorded in an explicit trace so that claims about "which calls happen"
are statable.
-/

namespace PasswordRotation

namespace Db

/-- One set of database credentials (db/db.go, `Credentials`). -/
structure Credentials where
  username : String
  hostname : String
  password : String
deriving Repr, DecidableEq

/-- Current and new credentials (db/db.go, `NewPassword`): the unit passed
through set/verify/rollback. -/
structure NewPassword where
  current : Credentials
  new : Credentials
deriving Repr, DecidableEq

end Db

namespace Mysql

/-- The three `setAll` actions (db/mysql, consts `set_password`,
`verify_password`, `rollback_password`). -/
inductive Action where
  | set_password
  | verify_password
  | rollback_password
deriving Repr, DecidableEq

/-- The error value returned by `setOne`: the database client's own error
(`op`), the context's cancellation error (`ctxCancelled`), or the
internal-consistency error produced when the loop falls through
(`internal`). -/
inductive SetOneErr where
  | op (e : String)
  | ctxCancelled
  | internal
deriving Repr, DecidableEq

/-- Per-target work tracking (db/mysql, `dbInstance`): the hostname plus the
three outcome flags and the three error slots. -/
structure DbInstance where
  hostname : String
  set : Bool := false
  verified : Bool := false
  rolledBack : Bool := false
  setError : Option SetOneErr := none
  verifyError : Option SetOneErr := none
  rollbackError : Option SetOneErr := none
deriving Repr, DecidableEq

/-- Default `DbInstance`, used as the out-of-range default for list reads. -/
def defaultDb : DbInstance := { hostname := "" }

/-- `NewPasswordSetter` sets `tries = 1 + cfg.Retry` (db/mysql). -/
def passwordSetterTries (retry : Nat) : Nat := 1 + retry

/-- `NewPasswordSetter` replaces `cfg.Parallel = 0` with `1` before sizing
the `maxParallel` semaphore channel (db/mysql). -/
def effectiveParallel (parallel : Nat) : Nat :=
  if parallel = 0 then 1 else parallel

/-- The retry loop of `PasswordSetter.setOne` (db/mysql). The loop variable
is re-indexed: `remaining` counts the tries still allowed including the
current one, so `remaining = tries - tryNo + 1`; the Go guard
`tryNo == m.tries` is `remaining = 1`, and the Go loop condition
`tryNo <= m.tries` failing is `remaining = 0`. `attempt tryNo` is the
database client's result for try number `tryNo` (`none` = success);
`c1 tryNo` is whether the context is observed cancelled at the check before
the sleep of try `tryNo`, `c2 tryNo` at the check after the sleep. The
result is the returned error (`none` = success) together with the number
of database-client calls made and the number of sleeps taken. -/
def setOneGo (attempt : Nat → Option String) (c1 c2 : Nat → Bool) :
    Nat → Nat → Option SetOneErr × Nat × Nat
  | 0, _ => (some .internal, 0, 0)
  | 1, tryNo =>
    match attempt tryNo with
    | none => (none, 1, 0)
    | some e => (some (.op e), 1, 0)
  | remaining + 2, tryNo =>
    match attempt tryNo with
    | none => (none, 1, 0)
    | some e =>
      if c1 tryNo then (some (.op e), 1, 0)
      else if c2 tryNo then (some .ctxCancelled, 1, 1)
      else
        let r := setOneGo attempt c1 c2 (remaining + 1) (tryNo + 1)
        (r.1, r.2.1 + 1, r.2.2 + 1)

/-- `PasswordSetter.setOne` (db/mysql): run the retry loop starting at try
number 1 with `tries` tries allowed. -/
def setOne (tries : Nat) (attempt : Nat → Option String) (c1 c2 : Nat → Bool) :
    Option SetOneErr × Nat × Nat :=
  setOneGo attempt c1 c2 tries 1

/-- Inside the `setAll` goroutine the transition's two hostnames are
overwritten with the target's own hostname before the client call
(db/mysql, `creds.Current.Hostname = ...; creds.New.Hostname = ...`). -/
def stampCreds (creds : Db.NewPassword) (host : String) : Db.NewPassword :=
  { current := { creds.current with hostname := host },
    new := { creds.new with hostname := host } }

/-- `PasswordSetter.Rollback` swaps current and new before calling `setAll`
(db/mysql, `swapCreds`). -/
def swapCreds (creds : Db.NewPassword) : Db.NewPassword :=
  { current := creds.new, new := creds.current }

/-- One call issued to the low-level database client (`PasswordClient`):
which target (by index into the cached list), for which action, with which
credentials. Each retry attempt is one call. -/
structure ClientCall where
  idx : Nat
  action : Action
  creds : Db.NewPassword
deriving Repr, DecidableEq

/-- The mutable state a fan-out pass works on: the cached target list
(`m.dbs`), the abstract per-target database password state (what password
each target's database currently holds), and the list of client calls
issued so far. -/
structure PassState where
  dbs : List DbInstance
  passwords : Nat → String
  calls : List ClientCall

/-- The per-target outcome recording of the `setAll` goroutine: on error
the action's error slot is written; on success the action's flag is set
(db/mysql, the two `switch action` blocks). -/
def recordOutcome (d : DbInstance) (action : Action) (res : Option SetOneErr) :
    DbInstance :=
  match res, action with
  | some e, .set_password => { d with setError := some e }
  | some e, .verify_password => { d with verifyError := some e }
  | some e, .rollback_password => { d with rollbackError := some e }
  | none, .set_password => { d with set := true }
  | none, .verify_password => { d with verified := true }
  | none, .rollback_password => { d with rolledBack := true }

/-- The error slot that `setAll`'s final aggregation inspects for the given
action (db/mysql, the `switch action` in the error count loop). -/
def actionError (d : DbInstance) (action : Action) : Option SetOneErr :=
  match action with
  | .set_password => d.setError
  | .verify_password => d.verifyError
  | .rollback_password => d.rollbackError

/-- Number of targets whose error slot for the action is non-nil
(db/mysql, `errCount`). -/
def countErrors (dbs : List DbInstance) (action : Action) : Nat :=
  dbs.countP (fun d => (actionError d action).isSome)

/-- Aggregate result of one `setAll` pass: success, the context's
cancellation error from the dispatch loop, or the "failed on N database
instances" error. -/
inductive SetAllResult where
  | ok
  | ctxErr
  | failed (count : Nat)
deriving Repr, DecidableEq

/-- Result of one fan-out pass: the updated target list, the abstract
database password state, the client calls issued, and the aggregate
result. -/
structure PassResult where
  dbs : List DbInstance
  passwords : Nat → String
  calls : List ClientCall
  result : SetAllResult

/-- The dispatch loop of `PasswordSetter.setAll` (db/mysql), sequentialized:
targets are processed in index order (the concurrency of the real loop is
treated separately by the semaphore model below; per-target outcome slots
are each written by exactly one worker, so the joined result is this
sequential fold). `attempt i` / `c1 i` / `c2 i` are target `i`'s oracles
for `setOne`; `dc i` is whether the `select` at iteration `i` observed the
cancelled context instead of a free semaphore slot (in which case the loop
stops dispatching, waits, and reports the context error). A rollback pass
skips any target whose `set` flag is false. On a successful set or
rollback client call the target database's password becomes the stamped
transition's new password; a verify call never changes it.

`processTarget` is the body of the `setAll` goroutine for one target
(db/mysql): stamp the hostname, run `setOne`, record the outcome in the
target's slot for this action, and update the abstract database password
on success of a set or rollback. -/
def processTarget (tries : Nat) (creds : Db.NewPassword) (action : Action)
    (attempt : Nat → Nat → Option String) (c1 c2 : Nat → Nat → Bool)
    (i : Nat) (st : PassState) : PassState :=
  { dbs := st.dbs.set i (recordOutcome (st.dbs.getD i defaultDb) action
      (setOne tries (attempt i) (c1 i) (c2 i)).1)
    passwords :=
      if action ≠ .verify_password ∧ (setOne tries (attempt i) (c1 i) (c2 i)).1 = none
      then fun j => if j = i
        then (stampCreds creds ((st.dbs.getD i defaultDb).hostname)).new.password
        else st.passwords j
      else st.passwords
    calls := st.calls ++ List.replicate (setOne tries (attempt i) (c1 i) (c2 i)).2.1
      ⟨i, action, stampCreds creds ((st.dbs.getD i defaultDb).hostname)⟩ }

def setAllGo (tries : Nat) (creds : Db.NewPassword) (action : Action)
    (attempt : Nat → Nat → Option String) (c1 c2 : Nat → Nat → Bool)
    (dc : Nat → Bool) : List Nat → PassState → PassState × Bool
  | [], st => (st, false)
  | i :: rest, st =>
    if dc i then (st, true)
    else if action = .rollback_password ∧ (st.dbs.getD i defaultDb).set = false then
      setAllGo tries creds action attempt c1 c2 dc rest st
    else
      setAllGo tries creds action attempt c1 c2 dc rest
        (processTarget tries creds action attempt c1 c2 i st)

/-- `PasswordSetter.setAll` (db/mysql): run the dispatch loop over every
cached target, then aggregate: context cancellation wins, else any
per-target error for this action yields the failure count error. -/
def setAll (tries : Nat) (creds : Db.NewPassword) (action : Action)
    (attempt : Nat → Nat → Option String) (c1 c2 : Nat → Nat → Bool)
    (dc : Nat → Bool) (dbs : List DbInstance) (pw : Nat → String) : PassResult :=
  let p := setAllGo tries creds action attempt c1 c2 dc
    (List.range dbs.length) ⟨dbs, pw, []⟩
  { dbs := p.1.dbs
    passwords := p.1.passwords
    calls := p.1.calls
    result :=
      if p.2 then .ctxErr
      else if countErrors p.1.dbs action > 0 then
        .failed (countErrors p.1.dbs action)
      else .ok }

/-- The reset loop at the top of `PasswordSetter.SetPassword` (db/mysql):
every target keeps only its hostname; all flags and error slots return to
their zero values. -/
def resetDbs (dbs : List DbInstance) : List DbInstance :=
  dbs.map (fun d => { hostname := d.hostname })

/-- `PasswordSetter.SetPassword` (db/mysql): reset all outcome slots, then
run a `set_password` pass. -/
def SetPassword (tries : Nat) (creds : Db.NewPassword)
    (attempt : Nat → Nat → Option String) (c1 c2 : Nat → Nat → Bool)
    (dc : Nat → Bool) (dbs : List DbInstance) (pw : Nat → String) : PassResult :=
  setAll tries creds .set_password attempt c1 c2 dc (resetDbs dbs) pw

/-- `PasswordSetter.VerifyPassword` (db/mysql): run a `verify_password`
pass on the target list as it stands (no reset). -/
def VerifyPassword (tries : Nat) (creds : Db.NewPassword)
    (attempt : Nat → Nat → Option String) (c1 c2 : Nat → Nat → Bool)
    (dc : Nat → Bool) (dbs : List DbInstance) (pw : Nat → String) : PassResult :=
  setAll tries creds .verify_password attempt c1 c2 dc dbs pw

/-- `PasswordSetter.Rollback` (db/mysql): swap current and new, then run a
`rollback_password` pass on the target list as it stands (no reset). -/
def Rollback (tries : Nat) (creds : Db.NewPassword)
    (attempt : Nat → Nat → Option String) (c1 c2 : Nat → Nat → Bool)
    (dc : Nat → Bool) (dbs : List DbInstance) (pw : Nat → String) : PassResult :=
  setAll tries (swapCreds creds) .rollback_password attempt c1 c2 dc dbs pw

/-- Concrete credentials used by witnesses and counterexamples. -/
def credsEx : Db.NewPassword :=
  { current := { username := "u", hostname := "", password := "oldp" },
    new := { username := "u", hostname := "", password := "newp" } }

/-- State of the `maxParallel` semaphore channel (db/mysql,
`NewPasswordSetter` and `setAll`): `free` is the number of tokens sitting
in the channel, `inflight` the number of dispatched `setOne` goroutines
that have not yet returned their token. The channel is created with
capacity `effectiveParallel cfg.Parallel` and filled with that many
tokens before any pass runs. -/
structure SemState where
  free : Nat
  inflight : Nat
deriving Repr, DecidableEq

/-- One scheduler event of the `setAll` dispatch loop against the semaphore:
`dispatch` receives a token and spawns a worker goroutine; `skipTarget` is
the rollback skip path, which receives a token and immediately sends it
back; `finish` is a worker goroutine completing, whose deferred function
sends its token back (also on panic). Receiving requires a token to be
available; the deferred send can never block because capacity equals the
token count. -/
inductive SemStep : SemState → SemState → Prop
  | dispatch (s : SemState) (h : 0 < s.free) :
      SemStep s ⟨s.free - 1, s.inflight + 1⟩
  | skipTarget (s : SemState) (h : 0 < s.free) : SemStep s s
  | finish (s : SemState) (h : 0 < s.inflight) :
      SemStep s ⟨s.free + 1, s.inflight - 1⟩

/-- Reachable semaphore states of a fan-out pass under cap `K`: the pass
starts with `K` free tokens and no workers in flight, and evolves by
`SemStep` events in any interleaving. -/
inductive SemReach (K : Nat) : SemState → Prop
  | start : SemReach K ⟨K, 0⟩
  | step {s t : SemState} : SemReach K s → SemStep s t → SemReach K t

end Mysql

namespace Rotator

/-- Staging labels (rotate.go, consts). -/
def AWSCURRENT : String := "AWSCURRENT"

/-- The pending staging label (rotate.go, consts). -/
def AWSPENDING : String := "AWSPENDING"

/-- A secret document's values: the JSON object of string key-value pairs. -/
abbrev Values := List (String × String)

/-- The metadata of one secret version returned by `GetSecretValue`:
its version id and its staging labels (rotate.go, `getSecret`). -/
structure SecretMeta where
  versionId : String
  versionStages : List String
deriving Repr, DecidableEq

/-- Result of a `getSecret` call that fails: the Secrets Manager
resource-not-found error code, or any other error (rotate.go, the
`awserr` check in `CreateSecret`). -/
inductive FetchErr where
  | resourceNotFound
  | other (e : String)
deriving Repr, DecidableEq

/-- The distinct error outcomes of `Rotator.CreateSecret` (rotate.go):
a failed current fetch is returned as-is; `currentIsNew` is the case-4
"new and current secret have the same version ID" error; a failed pending
fetch other than not-found is returned as-is; `conflict` is the case-3
"another pending secret exists" error; rotate and put errors are returned
as-is. -/
inductive CreateErr where
  | getCurrentFailed (e : FetchErr)
  | currentIsNew (token : String)
  | getPendingFailed (e : String)
  | rotateFailed (e : String)
  | putFailed (e : String)
  | conflict (versionId : String)
deriving Repr, DecidableEq

/-- Outcome of one `CreateSecret` invocation: the returned error (`none` =
success) plus whether the credential strategy's `Rotate` and the store's
`PutSecretValue` were called. -/
structure CreateTrace where
  result : Option CreateErr
  rotateCalled : Bool
  putCalled : Bool
deriving Repr, DecidableEq

/-- Recognizer for the case-3 conflict error of `CreateSecret`. -/
def isConflictErr : Option CreateErr → Bool
  | some (.conflict _) => true
  | _ => false

/-- The tail of `CreateSecret` (rotate.go): copy the current values, have
the `SecretSetter` rotate them, marshal, and `PutSecretValue` with the
pending label and this run's token as version id. `rotateFn` is the
user-provided `Rotate`; `putResult` the store's answer. -/
def rotateCurrent (curVals : Values) (rotateFn : Values → Except String Values)
    (putResult : Option String) : CreateTrace :=
  match rotateFn curVals with
  | .error e => ⟨some (.rotateFailed e), true, false⟩
  | .ok _ =>
    match putResult with
    | some e => ⟨some (.putFailed e), true, true⟩
    | none => ⟨none, true, true⟩

/-- `Rotator.CreateSecret` (rotate.go): fetch the current secret; fail if
its version id equals this run's token (case 4); if the current secret
does not also carry the pending label, fetch the pending secret — on
not-found rotate the current values (the simplest case), on another fetch
error fail, on success return early with no write if the pending version
id equals the token (case 2: retry) and fail with the conflict error
otherwise (case 3); if the current secret does carry the pending label
(case 1), rotate the current values directly. `token` is the
ClientRequestToken; `curFetch`/`penFetch` are the store's answers for the
AWSCURRENT/AWSPENDING fetches. -/
def CreateSecret (token : String)
    (curFetch : Except FetchErr (SecretMeta × Values))
    (penFetch : Except FetchErr (SecretMeta × Values))
    (rotateFn : Values → Except String Values)
    (putResult : Option String) : CreateTrace :=
  match curFetch with
  | .error e => ⟨some (.getCurrentFailed e), false, false⟩
  | .ok (curSec, curVals) =>
    if curSec.versionId = token then ⟨some (.currentIsNew token), false, false⟩
    else if curSec.versionStages.contains AWSPENDING then
      rotateCurrent curVals rotateFn putResult
    else
      match penFetch with
      | .error .resourceNotFound => rotateCurrent curVals rotateFn putResult
      | .error (.other e) => ⟨some (.getPendingFailed e), false, false⟩
      | .ok (penSec, _) =>
        if penSec.versionId = token then ⟨none, false, false⟩
        else ⟨some (.conflict penSec.versionId), false, false⟩

/-- The error outcomes of the `setSecret`/`testSecret` phases (rotate.go):
a failed secret fetch is returned as-is; `rotationFailed` is the generic
`errRotationFailed` ("Password rotation failed, see previous log output"). -/
inductive PhaseErr where
  | fetchFailed (e : FetchErr)
  | rotationFailed
deriving Repr, DecidableEq

/-- Outcome of one `SetSecret`/`TestSecret` invocation: the returned error
(`none` = success), the credentials passed to the fan-out call if it was
made, and the credentials passed to the rollback path if it was invoked. -/
structure PhaseTrace where
  result : Option PhaseErr
  fanoutCreds : Option Db.NewPassword
  rollbackCreds : Option Db.NewPassword
deriving Repr, DecidableEq

/-- Credential assembly of `SetSecret`/`TestSecret` (rotate.go): the
user-provided `Credentials` extracts username and password from each
document's values; hostnames start empty and are stamped per target
inside the fan-out. -/
def mkCreds (credentialsFn : Values → String × String)
    (curVals newVals : Values) : Db.NewPassword :=
  { current := { username := (credentialsFn curVals).1, hostname := "",
                 password := (credentialsFn curVals).2 },
    new := { username := (credentialsFn newVals).1, hostname := "",
             password := (credentialsFn newVals).2 } }

/-- `Rotator.rollback` (rotate.go): call the fan-out `Rollback` with the
same credentials; on its failure return the generic rotation-failed error;
then re-fetch the pending secret (a failure there is returned as-is) and
remove the pending label (a failure there returns the generic error);
on full success still return the generic rotation-failed error — rollback
is only ever invoked from a failed phase. -/
def rollback (creds : Db.NewPassword)
    (dbRollbackResult : Db.NewPassword → Option String)
    (penFetch2 : Except FetchErr (SecretMeta × Values))
    (removeResult : Option String) : PhaseErr :=
  match dbRollbackResult creds with
  | some _ => .rotationFailed
  | none =>
    match penFetch2 with
    | .error e => .fetchFailed e
    | .ok _ =>
      match removeResult with
      | some _ => .rotationFailed
      | none => .rotationFailed

/-- `Rotator.SetSecret` (rotate.go): if `SkipDatabase` is set, do nothing;
else fetch the pending then the current document, derive credentials from
each, and call the fan-out `SetPassword`; on its failure invoke the
rollback path and return its (always generic) error. `setPasswordResult`
is the fan-out's answer for the given credentials. -/
def SetSecret (skipDb : Bool)
    (penFetch curFetch : Except FetchErr (SecretMeta × Values))
    (credentialsFn : Values → String × String)
    (setPasswordResult : Db.NewPassword → Option String)
    (dbRollbackResult : Db.NewPassword → Option String)
    (penFetch2 : Except FetchErr (SecretMeta × Values))
    (removeResult : Option String) : PhaseTrace :=
  if skipDb then ⟨none, none, none⟩
  else
    match penFetch with
    | .error e => ⟨some (.fetchFailed e), none, none⟩
    | .ok (_, newVals) =>
      match curFetch with
      | .error e => ⟨some (.fetchFailed e), none, none⟩
      | .ok (_, curVals) =>
        match setPasswordResult (mkCreds credentialsFn curVals newVals) with
        | none => ⟨none, some (mkCreds credentialsFn curVals newVals), none⟩
        | some _ =>
          ⟨some (rollback (mkCreds credentialsFn curVals newVals)
              dbRollbackResult penFetch2 removeResult),
           some (mkCreds credentialsFn curVals newVals),
           some (mkCreds credentialsFn curVals newVals)⟩

/-- `Rotator.TestSecret` (rotate.go): identical to `SetSecret` except the
fan-out call is `VerifyPassword`. `verifyPasswordResult` is the fan-out's
answer for the given credentials. -/
def TestSecret (skipDb : Bool)
    (penFetch curFetch : Except FetchErr (SecretMeta × Values))
    (credentialsFn : Values → String × String)
    (verifyPasswordResult : Db.NewPassword → Option String)
    (dbRollbackResult : Db.NewPassword → Option String)
    (penFetch2 : Except FetchErr (SecretMeta × Values))
    (removeResult : Option String) : PhaseTrace :=
  if skipDb then ⟨none, none, none⟩
  else
    match penFetch with
    | .error e => ⟨some (.fetchFailed e), none, none⟩
    | .ok (_, newVals) =>
      match curFetch with
      | .error e => ⟨some (.fetchFailed e), none, none⟩
      | .ok (_, curVals) =>
        match verifyPasswordResult (mkCreds credentialsFn curVals newVals) with
        | none => ⟨none, some (mkCreds credentialsFn curVals newVals), none⟩
        | some _ =>
          ⟨some (rollback (mkCreds credentialsFn curVals newVals)
              dbRollbackResult penFetch2 removeResult),
           some (mkCreds credentialsFn curVals newVals),
           some (mkCreds credentialsFn curVals newVals)⟩

/-- One replication status entry from `DescribeSecret` (rotate.go,
`checkSecretReplicationStatus`): a region and a status string; the Go
slice can also contain nil entries, which the loop skips. -/
structure ReplicationStatus where
  region : String
  status : String
deriving Repr, DecidableEq

/-- The Secrets Manager in-sync status constant. -/
def StatusTypeInSync : String := "InSync"

/-- The in-sync check of `checkSecretReplicationStatus` (rotate.go):
`replicationSyncComplete` starts true and is cleared when any non-nil
entry has a status other than InSync. -/
def replicationSyncComplete (sts : List (Option ReplicationStatus)) : Bool :=
  sts.all (fun s => match s with
    | none => true
    | some st => st.status == StatusTypeInSync)

/-- Default replication wait (rotate.go,
`DEFAULT_REPLICATION_WAIT_DURATION = 10 * time.Second`), in milliseconds. -/
def DEFAULT_REPLICATION_WAIT_DURATION_MS : Int := 10000

/-- Fixed poll sleep (rotate.go, `time.Sleep(500 * time.Millisecond)`),
in milliseconds. -/
def REPLICATION_POLL_SLEEP_MS : Int := 500

/-- The wait-duration selection of `checkSecretReplicationStatus`
(rotate.go): the configured duration when positive, else the default. -/
def effectiveReplicationWaitMs (cfgMs : Int) : Int :=
  if cfgMs > 0 then cfgMs else DEFAULT_REPLICATION_WAIT_DURATION_MS

/-- The error outcomes of `FinishSecret` (rotate.go): failed fetches and
the relabel error are returned as-is; `nilSecret` is the "expected an non
null secret" error; `replicationTimeout` is the "timeout waiting for
secret replication" error. -/
inductive FinishErr where
  | fetchFailed (e : FetchErr)
  | moveFailed (e : String)
  | describeFailed (e : String)
  | nilSecret
  | replicationTimeout
deriving Repr, DecidableEq

/-- One Secrets Manager API call made by `FinishSecret`, in order. -/
inductive SmCall where
  | getSecret (stage : String)
  | moveStage (removeFrom : String) (moveTo : String) (stage : String)
  | removeStage (removeFrom : String) (stage : String)
  | describeSecret
deriving Repr, DecidableEq

/-- The poll loop of `Rotator.checkSecretReplicationStatus` (rotate.go):
while the wait duration has not elapsed, call `DescribeSecret` (the
`describe` oracle, indexed by poll number `k`); a call error or a nil
secret is a hard error; if every non-nil region status is InSync the loop
succeeds; otherwise sleep the fixed interval and poll again. `fuel` is the
number of loop iterations the wait duration still allows; exhausting it is
the timeout error. Returns the result and the number of `DescribeSecret`
calls made. -/
def checkSecretReplicationStatus
    (describe : Nat → Except String (Option (List (Option ReplicationStatus)))) :
    Nat → Nat → Except FinishErr Unit × Nat
  | 0, _ => (.error .replicationTimeout, 0)
  | fuel + 1, k =>
    match describe k with
    | .error e => (.error (.describeFailed e), 1)
    | .ok none => (.error .nilSecret, 1)
    | .ok (some sts) =>
      if replicationSyncComplete sts then (.ok (), 1)
      else
        let r := checkSecretReplicationStatus describe fuel (k + 1)
        (r.1, r.2 + 1)

/-- Outcome of one `FinishSecret` invocation: the returned error (`none` =
success) and the ordered list of Secrets Manager calls made. -/
structure FinishTrace where
  result : Option FinishErr
  calls : List SmCall
deriving Repr, DecidableEq

set_option linter.unusedVariables false in
/-- `Rotator.FinishSecret` (rotate.go): fetch the current then the pending
document; move the AWSCURRENT label from the current version to the
pending version (one atomic `UpdateSecretVersionStage` call); wait for
replication to reach every replica region via the poll loop (a hard error
on timeout); then remove the AWSPENDING label from the now-current
version — a failure of that removal is only logged (`removeResult` does
not affect the returned value) and the phase still returns success. -/
def FinishSecret
    (curFetch penFetch : Except FetchErr (SecretMeta × Values))
    (moveResult : Option String)
    (describe : Nat → Except String (Option (List (Option ReplicationStatus))))
    (pollBudget : Nat)
    (removeResult : Option String) : FinishTrace :=
  match curFetch with
  | .error e => ⟨some (.fetchFailed e), [.getSecret AWSCURRENT]⟩
  | .ok (curSec, _) =>
    match penFetch with
    | .error e => ⟨some (.fetchFailed e),
        [.getSecret AWSCURRENT, .getSecret AWSPENDING]⟩
    | .ok (newSec, _) =>
      match moveResult with
      | some e => ⟨some (.moveFailed e),
          [.getSecret AWSCURRENT, .getSecret AWSPENDING,
           .moveStage curSec.versionId newSec.versionId AWSCURRENT]⟩
      | none =>
        match checkSecretReplicationStatus describe pollBudget 0 with
        | (.error e, n) => ⟨some e,
            [.getSecret AWSCURRENT, .getSecret AWSPENDING,
             .moveStage curSec.versionId newSec.versionId AWSCURRENT] ++
            List.replicate n .describeSecret⟩
        | (.ok _, n) =>
          ⟨none,
            [.getSecret AWSCURRENT, .getSecret AWSPENDING,
             .moveStage curSec.versionId newSec.versionId AWSCURRENT] ++
            List.replicate n .describeSecret ++
            [.removeStage newSec.versionId AWSPENDING]⟩

/-- Events are string-to-string maps in the Lambda entry point
(rotate.go, `Handler`). -/
abbrev EventMap := List (String × String)

/-- `InvokedBySecretsManager` (rotate.go): the event carries all three of
ClientRequestToken, SecretId and Step. -/
def InvokedBySecretsManager (event : EventMap) : Bool :=
  (event.lookup "ClientRequestToken").isSome &&
  (event.lookup "SecretId").isSome &&
  (event.lookup "Step").isSome

/-- The error outcomes of `Rotator.Handler` (rotate.go): an error from the
user handler, from either `Init`, from a step function, or the sentinel
`ErrInvalidStep` ("invalid Step value from event"). -/
inductive HandlerErr where
  | userErr (e : String)
  | ssInitErr (e : String)
  | dbInitErr (e : String)
  | stepFailed (e : String)
  | invalidStep
deriving Repr, DecidableEq

/-- The calls `Handler` makes on its collaborators, in order:
the user handler (non-Secrets-Manager events), `SecretSetter.Init`,
`PasswordSetter.Init`, and the dispatched step function. -/
inductive HandlerCall where
  | ssHandler
  | ssInit
  | dbInit
  | runStep (step : String)
deriving Repr, DecidableEq

/-- `Rotator.Handler` (rotate.go): a non-Secrets-Manager event goes to the
user-provided handler and bypasses everything else; otherwise
`SecretSetter.Init` then `PasswordSetter.Init` run (an error from either
is returned, without dispatching); then the Step value is dispatched to
one of the four step functions, and any other value returns a nil map with
the sentinel `ErrInvalidStep`. `userHandler` is the user handler's result;
`stepResult` the dispatched step's result. Returns the response map, the
error, and the ordered list of collaborator calls. -/
def Handler (event : EventMap)
    (userHandler : Option EventMap × Option String)
    (ssInitResult dbInitResult : Option String)
    (stepResult : String → Option String) :
    (Option EventMap × Option HandlerErr) × List HandlerCall :=
  if InvokedBySecretsManager event then
    match ssInitResult with
    | some e => ((none, some (.ssInitErr e)), [.ssInit])
    | none =>
      match dbInitResult with
      | some e => ((none, some (.dbInitErr e)), [.ssInit, .dbInit])
      | none =>
        match (event.lookup "Step").getD "" with
        | "createSecret" => ((none, (stepResult "createSecret").map .stepFailed),
            [.ssInit, .dbInit, .runStep "createSecret"])
        | "setSecret" => ((none, (stepResult "setSecret").map .stepFailed),
            [.ssInit, .dbInit, .runStep "setSecret"])
        | "testSecret" => ((none, (stepResult "testSecret").map .stepFailed),
            [.ssInit, .dbInit, .runStep "testSecret"])
        | "finishSecret" => ((none, (stepResult "finishSecret").map .stepFailed),
            [.ssInit, .dbInit, .runStep "finishSecret"])
        | _ => ((none, some .invalidStep), [.ssInit, .dbInit])
  else
    ((userHandler.1, userHandler.2.map .userErr), [.ssHandler])

end Rotator

namespace Mysql

theorem setOneGo_all_fail (attempt : Nat → Option String) (e : Nat → String)
    (hfail : ∀ n, attempt n = some (e n)) :
    ∀ n tryNo, 1 ≤ n →
      setOneGo attempt (fun _ => false) (fun _ => false) n tryNo =
        (some (.op (e (tryNo + n - 1))), n, n - 1) := by
  intro n
  induction n with
  | zero => intro tryNo h; omega
  | succ m ih =>
    intro tryNo _
    match m with
    | 0 => simp [setOneGo, hfail tryNo]
    | k + 1 =>
      have hrec := ih (tryNo + 1) (by omega)
      simp only [setOneGo, hfail tryNo, hrec]
      have ha : tryNo + 1 + (k + 1) - 1 = tryNo + (k + 1 + 1) - 1 := by omega
      have hb : k + 1 - 1 + 1 = k + 1 + 1 - 1 := by omega
      simp [ha, hb]

/-- C6: with configured retries `R` (so `tries = 1 + R` as set by
`NewPasswordSetter`), a target whose database-client call always fails is
attempted exactly `1 + R` times, its final error is the last attempt's
error, and only `R` sleeps are taken (none after the final attempt);
a first successful attempt returns immediately after exactly 1 call and no
sleep; and if the loop were entered with no try budget at all it returns
the internal-consistency error rather than succeeding or panicking. -/
theorem setOne_retry_budget (R : Nat) (attempt : Nat → Option String)
    (e : Nat → String) (hfail : ∀ n, attempt n = some (e n)) :
    setOne (passwordSetterTries R) attempt (fun _ => false) (fun _ => false) =
      (some (.op (e (passwordSetterTries R))), passwordSetterTries R, R) ∧
    (∀ (attempt2 : Nat → Option String) (c1 c2 : Nat → Bool) (tries : Nat),
      1 ≤ tries → attempt2 1 = none →
      setOne tries attempt2 c1 c2 = (none, 1, 0)) ∧
    (∀ (attempt3 : Nat → Option String) (c1 c2 : Nat → Bool),
      setOne 0 attempt3 c1 c2 = (some .internal, 0, 0)) := by
  refine ⟨?_, ?_, ?_⟩
  · have h := setOneGo_all_fail attempt e hfail (passwordSetterTries R) 1
      (by simp [passwordSetterTries])
    rw [setOne, h]
    simp [passwordSetterTries]
  · intro attempt2 c1 c2 tries h1 hsucc
    match tries with
    | 1 => simp [setOne, setOneGo, hsucc]
    | k + 2 => simp [setOne, setOneGo, hsucc]
  · intro attempt3 c1 c2
    simp [setOne, setOneGo]

/-- Witness for C6 at a concrete input: 2 retries, an always-failing client. -/
theorem setOne_retry_budget_witness :
    setOne (passwordSetterTries 2) (fun _ => some "boom")
      (fun _ => false) (fun _ => false) = (some (.op "boom"), 3, 2) := by
  have h := (setOne_retry_budget 2 (fun _ => some "boom") (fun _ => "boom")
    (fun _ => rfl)).1
  simpa [passwordSetterTries] using h

/-- C7: in the retry loop, when an attempt fails with attempts remaining:
if cancellation is already observed at the check before the sleep, the
operation's own error is returned after 1 client call and no sleep; if
cancellation is first observed at the check after the sleep, the
cancellation error is returned; otherwise the loop proceeds to the next
attempt (one more client call and one more sleep than the rest of the
loop starting at try 2). -/
theorem setOne_cancellation (tries : Nat) (attempt : Nat → Option String)
    (c1 c2 : Nat → Bool) (e : String)
    (h2 : 2 ≤ tries) (h1 : attempt 1 = some e) :
    (c1 1 = true → setOne tries attempt c1 c2 = (some (.op e), 1, 0)) ∧
    (c1 1 = false → c2 1 = true →
      setOne tries attempt c1 c2 = (some .ctxCancelled, 1, 1)) ∧
    (c1 1 = false → c2 1 = false →
      setOne tries attempt c1 c2 =
        ((setOneGo attempt c1 c2 (tries - 1) 2).1,
         (setOneGo attempt c1 c2 (tries - 1) 2).2.1 + 1,
         (setOneGo attempt c1 c2 (tries - 1) 2).2.2 + 1)) := by
  obtain ⟨t, rfl⟩ : ∃ t, tries = t + 2 := ⟨tries - 2, by omega⟩
  refine ⟨?_, ?_, ?_⟩
  · intro hc1
    simp [setOne, setOneGo, h1, hc1]
  · intro hc1 hc2
    simp [setOne, setOneGo, h1, hc1, hc2]
  · intro hc1 hc2
    simp [setOne, setOneGo, h1, hc1, hc2]

/-- Witness for C7 at a concrete input: first attempt fails, cancellation
observed at the check before the sleep, so the operation's error wins. -/
theorem setOne_cancellation_witness :
    setOne 2 (fun _ => some "dberr") (fun _ => true) (fun _ => false) =
      (some (.op "dberr"), 1, 0) := by
  exact (setOne_cancellation 2 (fun _ => some "dberr") (fun _ => true)
    (fun _ => false) "dberr" (by omega) rfl).1 rfl

theorem getD_set_ne {α : Type} (l : List α) {i j : Nat} (x d : α) (h : i ≠ j) :
    (l.set i x).getD j d = l.getD j d := by
  simp [List.getD_eq_getElem?_getD, List.getElem?_set_ne h]

theorem getD_set_lt {α : Type} (l : List α) {i : Nat} (x d : α) (h : i < l.length) :
    (l.set i x).getD i d = x := by
  simp [List.getD_eq_getElem?_getD, List.getElem?_set_self, h]

theorem resetDbs_getD (dbs : List DbInstance) (i : Nat) :
    (resetDbs dbs).getD i defaultDb =
      { hostname := (dbs.getD i defaultDb).hostname } := by
  simp only [resetDbs, List.getD_eq_getElem?_getD, List.getElem?_map]
  cases dbs[i]? <;> simp [defaultDb]

theorem processTarget_getD_preserves {α : Type} (P : DbInstance → α)
    (tries : Nat) (creds : Db.NewPassword) (action : Action)
    (attempt : Nat → Nat → Option String) (c1 c2 : Nat → Nat → Bool)
    (i k : Nat) (st : PassState)
    (hP : ∀ d res, P (recordOutcome d action res) = P d) :
    P ((processTarget tries creds action attempt c1 c2 i st).dbs.getD k defaultDb) =
      P (st.dbs.getD k defaultDb) := by
  unfold processTarget
  by_cases hik : i = k
  · subst hik
    by_cases hlen : i < st.dbs.length
    · rw [getD_set_lt _ _ _ hlen]
      exact hP _ _
    · rw [List.set_eq_of_length_le (Nat.le_of_not_lt hlen)]
  · rw [getD_set_ne _ _ _ hik]

theorem processTarget_passwords_ne
    (tries : Nat) (creds : Db.NewPassword) (action : Action)
    (attempt : Nat → Nat → Option String) (c1 c2 : Nat → Nat → Bool)
    (i k : Nat) (st : PassState) (hik : k ≠ i) :
    (processTarget tries creds action attempt c1 c2 i st).passwords k =
      st.passwords k := by
  show (if action ≠ Action.verify_password ∧
      (setOne tries (attempt i) (c1 i) (c2 i)).1 = none
    then fun j => if j = i
      then (stampCreds creds ((st.dbs.getD i defaultDb).hostname)).new.password
      else st.passwords j
    else st.passwords) k = st.passwords k
  by_cases h : action ≠ Action.verify_password ∧
      (setOne tries (attempt i) (c1 i) (c2 i)).1 = none
  · rw [if_pos h]
    simp [hik]
  · rw [if_neg h]

theorem processTarget_calls_mem
    (tries : Nat) (creds : Db.NewPassword) (action : Action)
    (attempt : Nat → Nat → Option String) (c1 c2 : Nat → Nat → Bool)
    (i : Nat) (st : PassState) (c : ClientCall)
    (hc : c ∈ (processTarget tries creds action attempt c1 c2 i st).calls) :
    c ∈ st.calls ∨
      c = ⟨i, action, stampCreds creds ((st.dbs.getD i defaultDb).hostname)⟩ := by
  unfold processTarget at hc
  rcases List.mem_append.mp hc with h | h
  · exact Or.inl h
  · exact Or.inr (List.eq_of_mem_replicate h)

theorem setAllGo_preserves {α : Type} (P : DbInstance → α)
    (tries : Nat) (creds : Db.NewPassword) (action : Action)
    (attempt : Nat → Nat → Option String) (c1 c2 : Nat → Nat → Bool)
    (dc : Nat → Bool)
    (hP : ∀ d res, P (recordOutcome d action res) = P d) :
    ∀ (L : List Nat) (st : PassState) (i : Nat),
      P ((setAllGo tries creds action attempt c1 c2 dc L st).1.dbs.getD i defaultDb) =
        P (st.dbs.getD i defaultDb) := by
  intro L
  induction L with
  | nil => intro st i; rfl
  | cons j rest ih =>
    intro st i
    rw [setAllGo]
    by_cases hdc : dc j
    · simp [hdc]
    · rw [if_neg (by simp [hdc])]
      by_cases hskip : action = .rollback_password ∧
          (st.dbs.getD j defaultDb).set = false
      · rw [if_pos hskip]
        exact ih st i
      · rw [if_neg hskip]
        rw [ih _ i]
        exact processTarget_getD_preserves P tries creds action attempt c1 c2 j i st hP

theorem setAllGo_rollback_calls (tries : Nat) (creds : Db.NewPassword)
    (attempt : Nat → Nat → Option String) (c1 c2 : Nat → Nat → Bool)
    (dc : Nat → Bool) :
    ∀ (L : List Nat) (st : PassState) (c : ClientCall),
      c ∈ (setAllGo tries creds .rollback_password attempt c1 c2 dc L st).1.calls →
      c ∈ st.calls ∨
        ((st.dbs.getD c.idx defaultDb).set = true ∧
         c.action = .rollback_password ∧
         c.creds = stampCreds creds ((st.dbs.getD c.idx defaultDb).hostname)) := by
  intro L
  induction L with
  | nil => intro st c hc; exact Or.inl hc
  | cons j rest ih =>
    intro st c hc
    rw [setAllGo] at hc
    by_cases hdc : dc j
    · rw [if_pos hdc] at hc
      exact Or.inl hc
    · rw [if_neg (by simp [hdc])] at hc
      by_cases hset : (st.dbs.getD j defaultDb).set = false
      · rw [if_pos ⟨rfl, hset⟩] at hc
        exact ih st c hc
      · rw [if_neg (fun h => hset h.2)] at hc
        have hsetT : (st.dbs.getD j defaultDb).set = true := by
          cases hx : (st.dbs.getD j defaultDb).set
          · exact absurd hx hset
          · rfl
        rcases ih _ c hc with hmem | hnew
        · rcases processTarget_calls_mem tries creds .rollback_password attempt c1 c2
            j st c hmem with h | h
          · exact Or.inl h
          · subst h
            exact Or.inr ⟨hsetT, rfl, rfl⟩
        · right
          have h1 : ((processTarget tries creds .rollback_password attempt c1 c2 j
                st).dbs.getD c.idx defaultDb).set =
              (st.dbs.getD c.idx defaultDb).set :=
            processTarget_getD_preserves (fun d => d.set) tries creds
              .rollback_password attempt c1 c2 j c.idx st
              (by intro d res; cases res <;> rfl)
          have h2 : ((processTarget tries creds .rollback_password attempt c1 c2 j
                st).dbs.getD c.idx defaultDb).hostname =
              (st.dbs.getD c.idx defaultDb).hostname :=
            processTarget_getD_preserves (fun d => d.hostname) tries creds
              .rollback_password attempt c1 c2 j c.idx st
              (by intro d res; cases res <;> rfl)
          refine ⟨?_, hnew.2.1, ?_⟩
          · have hx := hnew.1
            rwa [h1] at hx
          · have hx := hnew.2.2
            rwa [h2] at hx

theorem setAllGo_rollback_pw_unset (tries : Nat) (creds : Db.NewPassword)
    (attempt : Nat → Nat → Option String) (c1 c2 : Nat → Nat → Bool)
    (dc : Nat → Bool) :
    ∀ (L : List Nat) (st : PassState) (i : Nat),
      (st.dbs.getD i defaultDb).set = false →
      (setAllGo tries creds .rollback_password attempt c1 c2 dc L st).1.passwords i =
        st.passwords i := by
  intro L
  induction L with
  | nil => intro st i _; rfl
  | cons j rest ih =>
    intro st i hset
    rw [setAllGo]
    by_cases hdc : dc j
    · simp [hdc]
    · rw [if_neg (by simp [hdc])]
      by_cases hsk : (st.dbs.getD j defaultDb).set = false
      · rw [if_pos ⟨rfl, hsk⟩]
        exact ih st i hset
      · rw [if_neg (fun h => hsk h.2)]
        have hij : i ≠ j := by
          intro h
          rw [h] at hset
          exact hsk hset
        have hpres : ((processTarget tries creds .rollback_password attempt c1 c2
            j st).dbs.getD i defaultDb).set = false := by
          have h1 : ((processTarget tries creds .rollback_password attempt c1 c2 j
                st).dbs.getD i defaultDb).set = (st.dbs.getD i defaultDb).set :=
            processTarget_getD_preserves (fun d => d.set) tries creds
              .rollback_password attempt c1 c2 j i st
              (by intro d res; cases res <;> rfl)
          rw [h1]
          exact hset
        rw [ih _ i hpres]
        exact processTarget_passwords_ne tries creds .rollback_password attempt
          c1 c2 j i _ hij

theorem processTarget_rollback_inv (tries : Nat) (creds : Db.NewPassword)
    (attempt : Nat → Nat → Option String) (c1 c2 : Nat → Nat → Bool)
    (j : Nat) (st : PassState)
    (hinv : ∀ i, (st.dbs.getD i defaultDb).rolledBack = true →
      st.passwords i = creds.new.password) :
    ∀ k, ((processTarget tries creds .rollback_password attempt c1 c2 j st).dbs.getD
        k defaultDb).rolledBack = true →
      (processTarget tries creds .rollback_password attempt c1 c2 j st).passwords k =
        creds.new.password := by
  intro k hk
  have hdbs : (processTarget tries creds .rollback_password attempt c1 c2 j st).dbs =
      st.dbs.set j (recordOutcome (st.dbs.getD j defaultDb) .rollback_password
        (setOne tries (attempt j) (c1 j) (c2 j)).1) := rfl
  rw [hdbs] at hk
  show (if Action.rollback_password ≠ Action.verify_password ∧
      (setOne tries (attempt j) (c1 j) (c2 j)).1 = none
    then fun j1 => if j1 = j
      then (stampCreds creds ((st.dbs.getD j defaultDb).hostname)).new.password
      else st.passwords j1
    else st.passwords) k = creds.new.password
  cases hres : (setOne tries (attempt j) (c1 j) (c2 j)).1 with
  | none =>
    rw [if_pos ⟨by decide, rfl⟩]
    by_cases hkj : k = j
    · subst hkj
      simp [stampCreds]
    · simp only [hkj, if_false]
      rw [getD_set_ne _ _ _ (fun h => hkj h.symm)] at hk
      exact hinv k hk
  | some e =>
    rw [if_neg (by simp)]
    by_cases hkj : k = j
    · subst hkj
      by_cases hlen : k < st.dbs.length
      · rw [getD_set_lt _ _ _ hlen, hres] at hk
        simp only [recordOutcome] at hk
        exact hinv k hk
      · rw [List.set_eq_of_length_le (Nat.le_of_not_lt hlen)] at hk
        exact hinv k hk
    · rw [getD_set_ne _ _ _ (fun h => hkj h.symm)] at hk
      exact hinv k hk

theorem setAllGo_rollback_pw_rolledBack (tries : Nat) (creds : Db.NewPassword)
    (attempt : Nat → Nat → Option String) (c1 c2 : Nat → Nat → Bool)
    (dc : Nat → Bool) :
    ∀ (L : List Nat) (st : PassState),
      (∀ i, (st.dbs.getD i defaultDb).rolledBack = true →
        st.passwords i = creds.new.password) →
      ∀ i, ((setAllGo tries creds .rollback_password attempt c1 c2 dc L st).1.dbs.getD
              i defaultDb).rolledBack = true →
        (setAllGo tries creds .rollback_password attempt c1 c2 dc L st).1.passwords i =
          creds.new.password := by
  intro L
  induction L with
  | nil => intro st hinv i hrb; exact hinv i hrb
  | cons j rest ih =>
    intro st hinv i hrb
    rw [setAllGo] at hrb ⊢
    by_cases hdc : dc j
    · rw [if_pos hdc] at hrb ⊢
      exact hinv i hrb
    · rw [if_neg hdc] at hrb ⊢
      by_cases hsk : (st.dbs.getD j defaultDb).set = false
      · rw [if_pos ⟨rfl, hsk⟩] at hrb ⊢
        exact ih st hinv i hrb
      · rw [if_neg (fun h => hsk h.2)] at hrb ⊢
        exact ih _ (processTarget_rollback_inv tries creds attempt c1 c2 j st hinv)
          i hrb

theorem processTarget_length (tries : Nat) (creds : Db.NewPassword)
    (action : Action) (attempt : Nat → Nat → Option String)
    (c1 c2 : Nat → Nat → Bool) (i : Nat) (st : PassState) :
    (processTarget tries creds action attempt c1 c2 i st).dbs.length =
      st.dbs.length := by
  show (st.dbs.set i _).length = st.dbs.length
  exact List.length_set st.dbs i _

theorem recordOutcome_set_mono (d : DbInstance) (action : Action)
    (res : Option SetOneErr) (h : d.set = true) :
    (recordOutcome d action res).set = true := by
  cases res <;> cases action <;> simp [recordOutcome, h]

theorem processTarget_set_mono (tries : Nat) (creds : Db.NewPassword)
    (action : Action) (attempt : Nat → Nat → Option String)
    (c1 c2 : Nat → Nat → Bool) (i k : Nat) (st : PassState)
    (h : (st.dbs.getD k defaultDb).set = true) :
    ((processTarget tries creds action attempt c1 c2 i st).dbs.getD
      k defaultDb).set = true := by
  show ((st.dbs.set i (recordOutcome (st.dbs.getD i defaultDb) action
      (setOne tries (attempt i) (c1 i) (c2 i)).1)).getD k defaultDb).set = true
  by_cases hik : i = k
  · subst hik
    by_cases hlen : i < st.dbs.length
    · rw [getD_set_lt _ _ _ hlen]
      exact recordOutcome_set_mono _ _ _ h
    · rw [List.set_eq_of_length_le (Nat.le_of_not_lt hlen)]
      exact h
  · rw [getD_set_ne _ _ _ hik]
    exact h

theorem setAllGo_set_mono (tries : Nat) (creds : Db.NewPassword)
    (action : Action) (attempt : Nat → Nat → Option String)
    (c1 c2 : Nat → Nat → Bool) (dc : Nat → Bool) :
    ∀ (L : List Nat) (st : PassState) (k : Nat),
      (st.dbs.getD k defaultDb).set = true →
      ((setAllGo tries creds action attempt c1 c2 dc L st).1.dbs.getD
        k defaultDb).set = true := by
  intro L
  induction L with
  | nil => intro st k h; exact h
  | cons j rest ih =>
    intro st k h
    rw [setAllGo]
    by_cases hdc : dc j
    · rw [if_pos hdc]
      exact h
    · rw [if_neg hdc]
      by_cases hskip : action = .rollback_password ∧
          (st.dbs.getD j defaultDb).set = false
      · rw [if_pos hskip]
        exact ih st k h
      · rw [if_neg hskip]
        exact ih _ k (processTarget_set_mono tries creds action attempt c1 c2
          j k st h)

theorem setAllGo_set_pw_not_set (tries : Nat) (creds : Db.NewPassword)
    (attempt : Nat → Nat → Option String) (c1 c2 : Nat → Nat → Bool)
    (dc : Nat → Bool) :
    ∀ (L : List Nat) (st : PassState), (∀ j ∈ L, j < st.dbs.length) → ∀ i,
      ((setAllGo tries creds .set_password attempt c1 c2 dc L st).1.dbs.getD
        i defaultDb).set = false →
      (setAllGo tries creds .set_password attempt c1 c2 dc L st).1.passwords i =
        st.passwords i := by
  intro L
  induction L with
  | nil => intro st _ i _; rfl
  | cons j rest ih =>
    intro st hL i hfin
    rw [setAllGo] at hfin ⊢
    by_cases hdc : dc j
    · rw [if_pos hdc] at hfin ⊢
    · rw [if_neg hdc] at hfin ⊢
      rw [if_neg (fun h => Action.noConfusion h.1)] at hfin ⊢
      have hL2 : ∀ kk ∈ rest,
          kk < (processTarget tries creds .set_password attempt c1 c2
            j st).dbs.length := by
        intro kk hkk
        rw [processTarget_length]
        exact hL kk (List.mem_cons_of_mem _ hkk)
      rw [ih _ hL2 i hfin]
      cases hres : (setOne tries (attempt j) (c1 j) (c2 j)).1 with
      | some e =>
        show (if Action.set_password ≠ Action.verify_password ∧
            (setOne tries (attempt j) (c1 j) (c2 j)).1 = none
          then _ else st.passwords) i = st.passwords i
        rw [if_neg (by simp [hres])]
      | none =>
        have hj : j < st.dbs.length := hL j (List.mem_cons_self _ _)
        have hstep : ((processTarget tries creds .set_password attempt c1 c2
            j st).dbs.getD j defaultDb).set = true := by
          show ((st.dbs.set j (recordOutcome (st.dbs.getD j defaultDb)
            .set_password (setOne tries (attempt j) (c1 j) (c2 j)).1)).getD
              j defaultDb).set = true
          rw [getD_set_lt _ _ _ hj, hres]
          rfl
        have hfinj := setAllGo_set_mono tries creds .set_password attempt c1 c2
          dc rest _ j hstep
        have hij : i ≠ j := by
          intro h
          rw [h, hfinj] at hfin
          exact Bool.noConfusion hfin
        exact processTarget_passwords_ne tries creds .set_password attempt
          c1 c2 j i st hij

theorem SetPassword_dbs (tries : Nat) (creds : Db.NewPassword)
    (attempt : Nat → Nat → Option String) (c1 c2 : Nat → Nat → Bool)
    (dc : Nat → Bool) (dbs : List DbInstance) (pw : Nat → String) :
    (SetPassword tries creds attempt c1 c2 dc dbs pw).dbs =
      (setAllGo tries creds .set_password attempt c1 c2 dc
        (List.range (resetDbs dbs).length) ⟨resetDbs dbs, pw, []⟩).1.dbs := rfl

theorem SetPassword_passwords (tries : Nat) (creds : Db.NewPassword)
    (attempt : Nat → Nat → Option String) (c1 c2 : Nat → Nat → Bool)
    (dc : Nat → Bool) (dbs : List DbInstance) (pw : Nat → String) :
    (SetPassword tries creds attempt c1 c2 dc dbs pw).passwords =
      (setAllGo tries creds .set_password attempt c1 c2 dc
        (List.range (resetDbs dbs).length) ⟨resetDbs dbs, pw, []⟩).1.passwords := rfl

theorem VerifyPassword_dbs (tries : Nat) (creds : Db.NewPassword)
    (attempt : Nat → Nat → Option String) (c1 c2 : Nat → Nat → Bool)
    (dc : Nat → Bool) (dbs : List DbInstance) (pw : Nat → String) :
    (VerifyPassword tries creds attempt c1 c2 dc dbs pw).dbs =
      (setAllGo tries creds .verify_password attempt c1 c2 dc
        (List.range dbs.length) ⟨dbs, pw, []⟩).1.dbs := rfl

theorem Rollback_dbs (tries : Nat) (creds : Db.NewPassword)
    (attempt : Nat → Nat → Option String) (c1 c2 : Nat → Nat → Bool)
    (dc : Nat → Bool) (dbs : List DbInstance) (pw : Nat → String) :
    (Rollback tries creds attempt c1 c2 dc dbs pw).dbs =
      (setAllGo tries (swapCreds creds) .rollback_password attempt c1 c2 dc
        (List.range dbs.length) ⟨dbs, pw, []⟩).1.dbs := rfl

theorem Rollback_passwords (tries : Nat) (creds : Db.NewPassword)
    (attempt : Nat → Nat → Option String) (c1 c2 : Nat → Nat → Bool)
    (dc : Nat → Bool) (dbs : List DbInstance) (pw : Nat → String) :
    (Rollback tries creds attempt c1 c2 dc dbs pw).passwords =
      (setAllGo tries (swapCreds creds) .rollback_password attempt c1 c2 dc
        (List.range dbs.length) ⟨dbs, pw, []⟩).1.passwords := rfl

theorem Rollback_calls (tries : Nat) (creds : Db.NewPassword)
    (attempt : Nat → Nat → Option String) (c1 c2 : Nat → Nat → Bool)
    (dc : Nat → Bool) (dbs : List DbInstance) (pw : Nat → String) :
    (Rollback tries creds attempt c1 c2 dc dbs pw).calls =
      (setAllGo tries (swapCreds creds) .rollback_password attempt c1 c2 dc
        (List.range dbs.length) ⟨dbs, pw, []⟩).1.calls := rfl

/-- C3: a Rollback pass invokes the database client only on targets whose
`set` flag is true from the most recent Set pass, and every such client
call carries the transition with current and new swapped (stamped with the
target's hostname); a target on which Set never succeeded receives no
client call from Rollback and its database password is left at its
pre-Set value; and a target that Rollback marks rolled back has its
database password restored to its pre-Set value (assuming, per the
design invariant, that every target's pre-Set password is the
transition's current password). -/
theorem Rollback_only_set_targets
    (tries : Nat) (creds : Db.NewPassword)
    (a1 a2 : Nat → Nat → Option String) (b1 b2 b3 b4 : Nat → Nat → Bool)
    (dc1 dc2 : Nat → Bool) (dbs : List DbInstance) (pw : Nat → String)
    (r1 r2 : PassResult)
    (hpw : ∀ i, pw i = creds.current.password)
    (hr1 : r1 = SetPassword tries creds a1 b1 b2 dc1 dbs pw)
    (hr2 : r2 = Rollback tries creds a2 b3 b4 dc2 r1.dbs r1.passwords) :
    (∀ c ∈ r2.calls, (r1.dbs.getD c.idx defaultDb).set = true ∧
        c.action = .rollback_password ∧
        c.creds = stampCreds (swapCreds creds)
          ((r1.dbs.getD c.idx defaultDb).hostname)) ∧
    (∀ i, (r1.dbs.getD i defaultDb).set = false →
        (∀ c ∈ r2.calls, c.idx ≠ i) ∧ r2.passwords i = pw i) ∧
    (∀ i, (r2.dbs.getD i defaultDb).rolledBack = true →
        r2.passwords i = pw i) := by
  subst hr2
  subst hr1
  have hcalls : ∀ c ∈ (Rollback tries creds a2 b3 b4 dc2
      (SetPassword tries creds a1 b1 b2 dc1 dbs pw).dbs
      (SetPassword tries creds a1 b1 b2 dc1 dbs pw).passwords).calls,
      ((SetPassword tries creds a1 b1 b2 dc1 dbs pw).dbs.getD c.idx
        defaultDb).set = true ∧
      c.action = .rollback_password ∧
      c.creds = stampCreds (swapCreds creds)
        (((SetPassword tries creds a1 b1 b2 dc1 dbs pw).dbs.getD c.idx
          defaultDb).hostname) := by
    intro c hc
    rw [Rollback_calls] at hc
    rcases setAllGo_rollback_calls tries (swapCreds creds) a2 b3 b4 dc2 _ _ c hc
      with h | h
    · exact absurd h (List.not_mem_nil c)
    · exact h
  refine ⟨hcalls, ?_, ?_⟩
  · intro i hset
    constructor
    · intro c hc hci
      have h := (hcalls c hc).1
      rw [hci, hset] at h
      exact Bool.noConfusion h
    · have h1 := setAllGo_rollback_pw_unset tries (swapCreds creds) a2 b3 b4 dc2
        (List.range (SetPassword tries creds a1 b1 b2 dc1 dbs pw).dbs.length)
        ⟨(SetPassword tries creds a1 b1 b2 dc1 dbs pw).dbs,
         (SetPassword tries creds a1 b1 b2 dc1 dbs pw).passwords, []⟩ i hset
      rw [Rollback_passwords, h1]
      have h2 := setAllGo_set_pw_not_set tries creds a1 b1 b2 dc1
        (List.range (resetDbs dbs).length) ⟨resetDbs dbs, pw, []⟩
        (fun j hj => List.mem_range.mp hj) i hset
      rw [SetPassword_passwords, h2]
  · intro i hrb
    have hrbF : ∀ k, ((SetPassword tries creds a1 b1 b2 dc1 dbs pw).dbs.getD k
        defaultDb).rolledBack = false := by
      intro k
      have hp : ((SetPassword tries creds a1 b1 b2 dc1 dbs pw).dbs.getD k
          defaultDb).rolledBack =
          ((resetDbs dbs).getD k defaultDb).rolledBack :=
        setAllGo_preserves (fun d => d.rolledBack) tries creds .set_password
          a1 b1 b2 dc1 (by intro d res; cases res <;> rfl)
          (List.range (resetDbs dbs).length) ⟨resetDbs dbs, pw, []⟩ k
      rw [hp, resetDbs_getD]
    have key := setAllGo_rollback_pw_rolledBack tries (swapCreds creds) a2 b3 b4
      dc2 (List.range (SetPassword tries creds a1 b1 b2 dc1 dbs pw).dbs.length)
      ⟨(SetPassword tries creds a1 b1 b2 dc1 dbs pw).dbs,
       (SetPassword tries creds a1 b1 b2 dc1 dbs pw).passwords, []⟩
      (fun k hk => by rw [hrbF k] at hk; exact Bool.noConfusion hk) i hrb
    rw [Rollback_passwords]
    exact key.trans (hpw i).symm

/-- Witness for C3 at a concrete input: one target, all client calls
succeed; after Set then Rollback the target's database password is back at
its pre-Set value. -/
theorem Rollback_only_set_targets_witness :
    (Rollback 1 credsEx (fun _ _ => none) (fun _ _ => false) (fun _ _ => false)
      (fun _ => false)
      (SetPassword 1 credsEx (fun _ _ => none) (fun _ _ => false)
        (fun _ _ => false) (fun _ => false) [{ hostname := "h" }]
        (fun _ => "oldp")).dbs
      (SetPassword 1 credsEx (fun _ _ => none) (fun _ _ => false)
        (fun _ _ => false) (fun _ => false) [{ hostname := "h" }]
        (fun _ => "oldp")).passwords).passwords 0 = "oldp" := by
  have h := Rollback_only_set_targets 1 credsEx (fun _ _ => none)
    (fun _ _ => none) (fun _ _ => false) (fun _ _ => false) (fun _ _ => false)
    (fun _ _ => false) (fun _ => false) (fun _ => false) [{ hostname := "h" }]
    (fun _ => "oldp") _ _ (fun _ => rfl) rfl rfl
  exact h.2.2 0 (by decide)

/-- C4 (amended): only the Set pass resets the per-target outcome slots;
the Verify and Rollback passes leave every other pass's flags and errors
exactly as they were (Rollback in fact depends on the preserved `set`
flags), so a result recorded by an earlier pass remains observable after a
Verify or Rollback pass. Concretely: after SetPassword every verify and
rollback slot is in its reset state; VerifyPassword changes no set or
rollback slot; Rollback changes no set or verify slot. -/
theorem outcome_slots_reset_only_set
    (tries : Nat) (creds : Db.NewPassword)
    (attempt : Nat → Nat → Option String) (c1 c2 : Nat → Nat → Bool)
    (dc : Nat → Bool) (dbs : List DbInstance) (pw : Nat → String) :
    (∀ i,
      ((SetPassword tries creds attempt c1 c2 dc dbs pw).dbs.getD i
        defaultDb).verified = false ∧
      ((SetPassword tries creds attempt c1 c2 dc dbs pw).dbs.getD i
        defaultDb).verifyError = none ∧
      ((SetPassword tries creds attempt c1 c2 dc dbs pw).dbs.getD i
        defaultDb).rolledBack = false ∧
      ((SetPassword tries creds attempt c1 c2 dc dbs pw).dbs.getD i
        defaultDb).rollbackError = none) ∧
    (∀ i,
      ((VerifyPassword tries creds attempt c1 c2 dc dbs pw).dbs.getD i
        defaultDb).set = (dbs.getD i defaultDb).set ∧
      ((VerifyPassword tries creds attempt c1 c2 dc dbs pw).dbs.getD i
        defaultDb).setError = (dbs.getD i defaultDb).setError ∧
      ((VerifyPassword tries creds attempt c1 c2 dc dbs pw).dbs.getD i
        defaultDb).rolledBack = (dbs.getD i defaultDb).rolledBack ∧
      ((VerifyPassword tries creds attempt c1 c2 dc dbs pw).dbs.getD i
        defaultDb).rollbackError = (dbs.getD i defaultDb).rollbackError) ∧
    (∀ i,
      ((Rollback tries creds attempt c1 c2 dc dbs pw).dbs.getD i
        defaultDb).set = (dbs.getD i defaultDb).set ∧
      ((Rollback tries creds attempt c1 c2 dc dbs pw).dbs.getD i
        defaultDb).setError = (dbs.getD i defaultDb).setError ∧
      ((Rollback tries creds attempt c1 c2 dc dbs pw).dbs.getD i
        defaultDb).verified = (dbs.getD i defaultDb).verified ∧
      ((Rollback tries creds attempt c1 c2 dc dbs pw).dbs.getD i
        defaultDb).verifyError = (dbs.getD i defaultDb).verifyError) := by
  refine ⟨fun i => ?_, fun i => ?_, fun i => ?_⟩
  · refine ⟨?_, ?_, ?_, ?_⟩
    · have h : ((SetPassword tries creds attempt c1 c2 dc dbs pw).dbs.getD i
          defaultDb).verified = ((resetDbs dbs).getD i defaultDb).verified :=
        setAllGo_preserves (fun d => d.verified) tries creds .set_password
          attempt c1 c2 dc (by intro d res; cases res <;> rfl)
          (List.range (resetDbs dbs).length) ⟨resetDbs dbs, pw, []⟩ i
      rw [h, resetDbs_getD]
    · have h : ((SetPassword tries creds attempt c1 c2 dc dbs pw).dbs.getD i
          defaultDb).verifyError =
          ((resetDbs dbs).getD i defaultDb).verifyError :=
        setAllGo_preserves (fun d => d.verifyError) tries creds .set_password
          attempt c1 c2 dc (by intro d res; cases res <;> rfl)
          (List.range (resetDbs dbs).length) ⟨resetDbs dbs, pw, []⟩ i
      rw [h, resetDbs_getD]
    · have h : ((SetPassword tries creds attempt c1 c2 dc dbs pw).dbs.getD i
          defaultDb).rolledBack =
          ((resetDbs dbs).getD i defaultDb).rolledBack :=
        setAllGo_preserves (fun d => d.rolledBack) tries creds .set_password
          attempt c1 c2 dc (by intro d res; cases res <;> rfl)
          (List.range (resetDbs dbs).length) ⟨resetDbs dbs, pw, []⟩ i
      rw [h, resetDbs_getD]
    · have h : ((SetPassword tries creds attempt c1 c2 dc dbs pw).dbs.getD i
          defaultDb).rollbackError =
          ((resetDbs dbs).getD i defaultDb).rollbackError :=
        setAllGo_preserves (fun d => d.rollbackError) tries creds .set_password
          attempt c1 c2 dc (by intro d res; cases res <;> rfl)
          (List.range (resetDbs dbs).length) ⟨resetDbs dbs, pw, []⟩ i
      rw [h, resetDbs_getD]
  · exact ⟨setAllGo_preserves (fun d => d.set) tries creds .verify_password
        attempt c1 c2 dc (by intro d res; cases res <;> rfl)
        (List.range dbs.length) ⟨dbs, pw, []⟩ i,
      setAllGo_preserves (fun d => d.setError) tries creds .verify_password
        attempt c1 c2 dc (by intro d res; cases res <;> rfl)
        (List.range dbs.length) ⟨dbs, pw, []⟩ i,
      setAllGo_preserves (fun d => d.rolledBack) tries creds .verify_password
        attempt c1 c2 dc (by intro d res; cases res <;> rfl)
        (List.range dbs.length) ⟨dbs, pw, []⟩ i,
      setAllGo_preserves (fun d => d.rollbackError) tries creds .verify_password
        attempt c1 c2 dc (by intro d res; cases res <;> rfl)
        (List.range dbs.length) ⟨dbs, pw, []⟩ i⟩
  · exact ⟨setAllGo_preserves (fun d => d.set) tries (swapCreds creds)
        .rollback_password attempt c1 c2 dc (by intro d res; cases res <;> rfl)
        (List.range dbs.length) ⟨dbs, pw, []⟩ i,
      setAllGo_preserves (fun d => d.setError) tries (swapCreds creds)
        .rollback_password attempt c1 c2 dc (by intro d res; cases res <;> rfl)
        (List.range dbs.length) ⟨dbs, pw, []⟩ i,
      setAllGo_preserves (fun d => d.verified) tries (swapCreds creds)
        .rollback_password attempt c1 c2 dc (by intro d res; cases res <;> rfl)
        (List.range dbs.length) ⟨dbs, pw, []⟩ i,
      setAllGo_preserves (fun d => d.verifyError) tries (swapCreds creds)
        .rollback_password attempt c1 c2 dc (by intro d res; cases res <;> rfl)
        (List.range dbs.length) ⟨dbs, pw, []⟩ i⟩

/-- C4 counterexample: after a Set pass in which the single target's client
call failed (recording a set error), a subsequent Verify pass in which the
client succeeds does NOT reset the outcome slots: the stale set error from
the earlier pass is still present in the target's slots (alongside this
pass's fresh verified flag), so the claim that every pass starts by
resetting all outcome slots is false for Verify (and likewise Rollback,
which must keep the set flags to do its job). -/
theorem verify_pass_keeps_stale_counterexample :
    ((VerifyPassword 1 credsEx (fun _ _ => none) (fun _ _ => false)
        (fun _ _ => false) (fun _ => false)
        (SetPassword 1 credsEx (fun _ _ => some "boom") (fun _ _ => false)
          (fun _ _ => false) (fun _ => false) [{ hostname := "h" }]
          (fun _ => "p")).dbs
        (SetPassword 1 credsEx (fun _ _ => some "boom") (fun _ _ => false)
          (fun _ _ => false) (fun _ => false) [{ hostname := "h" }]
          (fun _ => "p")).passwords).dbs.getD 0 defaultDb).setError =
      some (.op "boom") ∧
    ((VerifyPassword 1 credsEx (fun _ _ => none) (fun _ _ => false)
        (fun _ _ => false) (fun _ => false)
        (SetPassword 1 credsEx (fun _ _ => some "boom") (fun _ _ => false)
          (fun _ _ => false) (fun _ => false) [{ hostname := "h" }]
          (fun _ => "p")).dbs
        (SetPassword 1 credsEx (fun _ _ => some "boom") (fun _ _ => false)
          (fun _ _ => false) (fun _ => false) [{ hostname := "h" }]
          (fun _ => "p")).passwords).dbs.getD 0 defaultDb).verified = true := by
  exact ⟨rfl, rfl⟩

theorem semReach_invariant (K : Nat) :
    ∀ s, SemReach K s → s.free + s.inflight = K := by
  intro s h
  induction h with
  | start => rfl
  | step _ hstep ih =>
    cases hstep with
    | dispatch h => simp at ih ⊢; omega
    | skipTarget h => exact ih
    | finish h => simp at ih ⊢; omega

/-- C9: in every reachable scheduler state of a fan-out pass with
configured concurrency `parallel`, the number of per-target operations in
flight never exceeds the effective cap (which is 1 when the configuration
specifies 0, as set by `NewPasswordSetter`). -/
theorem fanout_concurrency_cap (parallel : Nat) (s : SemState)
    (h : SemReach (effectiveParallel parallel) s) :
    s.inflight ≤ effectiveParallel parallel ∧ effectiveParallel 0 = 1 := by
  have hinv := semReach_invariant (effectiveParallel parallel) s h
  exact ⟨by omega, rfl⟩

/-- Witness for C9 at a concrete input: with `Parallel = 0` (effective cap
1), after one dispatch the state has one worker in flight, within the cap. -/
theorem fanout_concurrency_cap_witness :
    (⟨0, 1⟩ : SemState).inflight ≤ effectiveParallel 0 ∧
      effectiveParallel 0 = 1 := by
  have hreach : SemReach (effectiveParallel 0) ⟨0, 1⟩ := by
    have h0 : SemReach (effectiveParallel 0) ⟨1, 0⟩ := SemReach.start
    have h1 := SemReach.step h0 (SemStep.dispatch ⟨1, 0⟩ (by decide))
    exact h1
  exact fanout_concurrency_cap 0 ⟨0, 1⟩ hreach

end Mysql

namespace Rotator

theorem rollback_always_generic (creds : Db.NewPassword)
    (dbRollbackRes : Db.NewPassword → Option String)
    (p2Sec : SecretMeta) (p2Vals : Values) (removeRes : Option String) :
    rollback creds dbRollbackRes (.ok (p2Sec, p2Vals)) removeRes =
      .rotationFailed := by
  unfold rollback
  cases dbRollbackRes creds
  · cases removeRes <;> rfl
  · rfl

/-- C1 (amended): for every createSecret invocation on a store whose
pending label is consistent (if the current version carries the pending
label then the pending fetch returns the current version) in which a
pending-labeled secret exists, its version id equals the run identifier,
and the current version's id differs from the run identifier, CreateSecret
returns success and performs no write: neither the strategy's Rotate nor
the store's PutSecretValue is called — so a second call with the same run
identifier and unchanged store state issues no second write. (When the
current version's id equals the run identifier, CreateSecret instead
fails with the corrupted-labels error, still writing nothing; see the
counterexample.) -/
theorem createSecret_retry_no_write
    (token : String) (curSec : SecretMeta) (curVals : Values)
    (penSec : SecretMeta) (penVals : Values)
    (rotateFn : Values → Except String Values) (putResult : Option String)
    (hwf : curSec.versionStages.contains AWSPENDING = true →
      penSec.versionId = curSec.versionId)
    (hne : curSec.versionId ≠ token)
    (hpen : penSec.versionId = token) :
    CreateSecret token (.ok (curSec, curVals)) (.ok (penSec, penVals))
      rotateFn putResult = ⟨none, false, false⟩ := by
  have hcp : curSec.versionStages.contains AWSPENDING = false := by
    cases hx : curSec.versionStages.contains AWSPENDING
    · rfl
    · have h := hpen
      rw [hwf hx] at h
      exact absurd h hne
  have hmem : ¬ AWSPENDING ∈ curSec.versionStages := by simpa using hcp
  simp [CreateSecret, hne, hcp, hmem, hpen]

/-- Witness for C1 at a concrete input: current version v1, pending
version abc equal to the run token; success with no Rotate and no
PutSecretValue call. -/
theorem createSecret_retry_no_write_witness :
    CreateSecret "abc" (.ok (⟨"v1", [AWSCURRENT]⟩, []))
      (.ok (⟨"abc", [AWSPENDING]⟩, [])) (fun v => .ok v) none =
      ⟨none, false, false⟩ := by
  exact createSecret_retry_no_write "abc" ⟨"v1", [AWSCURRENT]⟩ []
    ⟨"abc", [AWSPENDING]⟩ [] (fun v => .ok v) none
    (fun h => absurd h (by decide)) (by decide) rfl

/-- C1 counterexample: in the store state where the current version itself
carries both labels and its version id equals the run identifier — a
pending-labeled secret exists and its version id equals the run
identifier, as the claim requires — CreateSecret does not return success:
it fails with the case-4 corrupted-labels error (the check at
rotate.go:240 fires before any pending handling). -/
theorem createSecret_retry_counterexample :
    (CreateSecret "abc"
      (.ok (⟨"abc", [AWSCURRENT, AWSPENDING]⟩, []))
      (.ok (⟨"abc", [AWSCURRENT, AWSPENDING]⟩, []))
      (fun v => .ok v) none).result = some (.currentIsNew "abc") := by
  rfl

/-- C2 (amended): for every createSecret invocation where the current
secret does not carry the pending label, the current version's id differs
from the run identifier, and a pending-labeled secret exists whose version
id differs from the run identifier, CreateSecret returns the conflict
error and performs no write: neither Rotate nor PutSecretValue is called,
leaving the store unchanged. (When the current version's id equals the run
identifier, the case-4 corrupted-labels error is returned instead of the
conflict error, still with no write; see the counterexample.) -/
theorem createSecret_conflict_no_write
    (token : String) (curSec : SecretMeta) (curVals : Values)
    (penSec : SecretMeta) (penVals : Values)
    (rotateFn : Values → Except String Values) (putResult : Option String)
    (hne : curSec.versionId ≠ token)
    (hnp : curSec.versionStages.contains AWSPENDING = false)
    (hpen : penSec.versionId ≠ token) :
    CreateSecret token (.ok (curSec, curVals)) (.ok (penSec, penVals))
      rotateFn putResult =
      ⟨some (.conflict penSec.versionId), false, false⟩ := by
  have hmem : ¬ AWSPENDING ∈ curSec.versionStages := by simpa using hnp
  simp [CreateSecret, hne, hnp, hmem, hpen]

/-- Witness for C2 at a concrete input: current version v1 without the
pending label, pending version xyz different from the run token abc;
the conflict error is returned and nothing is written. -/
theorem createSecret_conflict_no_write_witness :
    CreateSecret "abc" (.ok (⟨"v1", [AWSCURRENT]⟩, []))
      (.ok (⟨"xyz", [AWSPENDING]⟩, [])) (fun v => .ok v) none =
      ⟨some (.conflict "xyz"), false, false⟩ := by
  exact createSecret_conflict_no_write "abc" ⟨"v1", [AWSCURRENT]⟩ []
    ⟨"xyz", [AWSPENDING]⟩ [] (fun v => .ok v) none
    (by decide) (by decide) (by decide)

/-- C2 counterexample: when the current version's id equals the run
identifier (labels corrupted), with the current secret not carrying the
pending label and a pending-labeled secret whose version id differs — the
claim's stated preconditions — CreateSecret errs, but not with the
conflict error: the case-4 check fires first, so the claim's "returns a
conflict error" is false as stated. -/
theorem createSecret_conflict_counterexample :
    isConflictErr (CreateSecret "abc" (.ok (⟨"abc", [AWSCURRENT]⟩, []))
      (.ok (⟨"xyz", [AWSPENDING]⟩, [])) (fun v => .ok v) none).result = false ∧
    (CreateSecret "abc" (.ok (⟨"abc", [AWSCURRENT]⟩, []))
      (.ok (⟨"xyz", [AWSPENDING]⟩, [])) (fun v => .ok v) none).result ≠
      none := by
  exact ⟨rfl, by decide⟩

/-- C5: whenever the fan-out SetPassword (resp. VerifyPassword) call of
setSecret (resp. testSecret) fails, the phase invokes the rollback path
with the same credentials and returns the generic rotation-failed error —
the same generic error whether the compensating fan-out rollback succeeds,
the rollback itself fails, or removing the pending label fails (all three
cases are covered because the rollback and label-removal outcomes are
universally quantified). -/
theorem phase_failure_generic_error
    (pmSec cmSec p2Sec : SecretMeta) (pmVals cmVals p2Vals : Values)
    (credentialsFn : Values → String × String)
    (setRes verifyRes dbRollbackRes : Db.NewPassword → Option String)
    (removeRes : Option String) (e1 e2 : String)
    (hset : setRes (mkCreds credentialsFn cmVals pmVals) = some e1)
    (hver : verifyRes (mkCreds credentialsFn cmVals pmVals) = some e2) :
    SetSecret false (.ok (pmSec, pmVals)) (.ok (cmSec, cmVals)) credentialsFn
        setRes dbRollbackRes (.ok (p2Sec, p2Vals)) removeRes =
      ⟨some .rotationFailed, some (mkCreds credentialsFn cmVals pmVals),
       some (mkCreds credentialsFn cmVals pmVals)⟩ ∧
    TestSecret false (.ok (pmSec, pmVals)) (.ok (cmSec, cmVals)) credentialsFn
        verifyRes dbRollbackRes (.ok (p2Sec, p2Vals)) removeRes =
      ⟨some .rotationFailed, some (mkCreds credentialsFn cmVals pmVals),
       some (mkCreds credentialsFn cmVals pmVals)⟩ := by
  constructor
  · simp [SetSecret, hset, rollback_always_generic]
  · simp [TestSecret, hver, rollback_always_generic]

/-- Witness for C5 at a concrete input: both fan-out calls fail and the
rollback path itself also fails; the returned error is still the generic
rotation-failed error. -/
theorem phase_failure_generic_error_witness :
    (SetSecret false (.ok (⟨"v2", [AWSPENDING]⟩, []))
      (.ok (⟨"v1", [AWSCURRENT]⟩, [])) (fun _ => ("u", "p"))
      (fun _ => some "seterr") (fun _ => some "rberr")
      (.ok (⟨"v2", [AWSPENDING]⟩, [])) none).result =
      some .rotationFailed := by
  have h := phase_failure_generic_error ⟨"v2", [AWSPENDING]⟩
    ⟨"v1", [AWSCURRENT]⟩ ⟨"v2", [AWSPENDING]⟩ [] [] []
    (fun _ => ("u", "p")) (fun _ => some "seterr") (fun _ => some "verr")
    (fun _ => some "rberr") none "seterr" "verr" rfl rfl
  rw [h.1]

theorem pollLoop_first_sync
    (describe : Nat → Except String (Option (List (Option ReplicationStatus))))
    (sts : Nat → List (Option ReplicationStatus)) :
    ∀ (k fuel start : Nat), k < fuel →
      (∀ j, j ≤ k → describe (start + j) = .ok (some (sts (start + j)))) →
      (∀ j, j < k → replicationSyncComplete (sts (start + j)) = false) →
      replicationSyncComplete (sts (start + k)) = true →
      checkSecretReplicationStatus describe fuel start = (.ok (), k + 1) := by
  intro k
  induction k with
  | zero =>
    intro fuel start hf hdesc hns hsync
    match fuel, hf with
    | f + 1, _ =>
      have h0 := hdesc 0 (Nat.le_refl 0)
      rw [Nat.add_zero] at h0
      rw [Nat.add_zero] at hsync
      rw [checkSecretReplicationStatus, h0]
      simp [hsync]
  | succ n ih =>
    intro fuel start hf hdesc hns hsync
    match fuel, hf with
    | f + 1, _ =>
      have h0 := hdesc 0 (Nat.zero_le _)
      rw [Nat.add_zero] at h0
      have hns0 := hns 0 (Nat.succ_pos n)
      rw [Nat.add_zero] at hns0
      have hrec := ih f (start + 1) (by omega)
        (fun j hj => by
          have h := hdesc (j + 1) (by omega)
          rwa [show start + (j + 1) = start + 1 + j by omega] at h)
        (fun j hj => by
          have h := hns (j + 1) (by omega)
          rwa [show start + (j + 1) = start + 1 + j by omega] at h)
        (by rwa [show start + (n + 1) = start + 1 + n by omega] at hsync)
      rw [checkSecretReplicationStatus, h0]
      simp [hns0, hrec]

theorem pollLoop_never_sync
    (describe : Nat → Except String (Option (List (Option ReplicationStatus))))
    (sts : Nat → List (Option ReplicationStatus))
    (hdesc : ∀ j, describe j = .ok (some (sts j)))
    (hns : ∀ j, replicationSyncComplete (sts j) = false) :
    ∀ fuel start, checkSecretReplicationStatus describe fuel start =
      (.error .replicationTimeout, fuel) := by
  intro fuel
  induction fuel with
  | zero => intro start; rfl
  | succ f ih =>
    intro start
    rw [checkSecretReplicationStatus, hdesc start]
    simp [hns start, ih (start + 1)]

/-- C8: FinishSecret performs, in order, the AWSCURRENT fetch, the
AWSPENDING fetch, the single atomic relabel moving AWSCURRENT from the
current to the pending version, then one DescribeSecret poll per loop
iteration until every region reports in-sync, and finally the best-effort
removal of AWSPENDING — returning success regardless of the removal's
outcome (it is universally quantified). If no poll within the wait budget
reports all-in-sync, FinishSecret returns the hard replication-timeout
error and never reaches the removal. The configured wait defaults to
10 seconds when unset, and the poll interval is the fixed 500 ms sleep. -/
theorem FinishSecret_order
    (curSec newSec : SecretMeta) (curVals newVals : Values)
    (describe : Nat → Except String (Option (List (Option ReplicationStatus))))
    (sts : Nat → List (Option ReplicationStatus))
    (pollBudget k : Nat) (removeResult : Option String)
    (hk : k < pollBudget)
    (hdesc : ∀ j, j ≤ k → describe j = .ok (some (sts j)))
    (hns : ∀ j, j < k → replicationSyncComplete (sts j) = false)
    (hsync : replicationSyncComplete (sts k) = true) :
    FinishSecret (.ok (curSec, curVals)) (.ok (newSec, newVals)) none describe
        pollBudget removeResult =
      ⟨none, [.getSecret AWSCURRENT, .getSecret AWSPENDING,
        .moveStage curSec.versionId newSec.versionId AWSCURRENT] ++
        List.replicate (k + 1) .describeSecret ++
        [.removeStage newSec.versionId AWSPENDING]⟩ ∧
    (∀ (describe2 : Nat → Except String (Option (List (Option ReplicationStatus))))
        (sts2 : Nat → List (Option ReplicationStatus)),
      (∀ j, describe2 j = .ok (some (sts2 j))) →
      (∀ j, replicationSyncComplete (sts2 j) = false) →
      (FinishSecret (.ok (curSec, curVals)) (.ok (newSec, newVals)) none
          describe2 pollBudget removeResult).result =
        some .replicationTimeout ∧
      SmCall.removeStage newSec.versionId AWSPENDING ∉
        (FinishSecret (.ok (curSec, curVals)) (.ok (newSec, newVals)) none
          describe2 pollBudget removeResult).calls) ∧
    effectiveReplicationWaitMs 0 = DEFAULT_REPLICATION_WAIT_DURATION_MS ∧
    DEFAULT_REPLICATION_WAIT_DURATION_MS = 10000 ∧
    REPLICATION_POLL_SLEEP_MS = 500 := by
  have hpoll := pollLoop_first_sync describe sts k pollBudget 0 hk
    (fun j hj => by simpa [Nat.zero_add] using hdesc j hj)
    (fun j hj => by simpa [Nat.zero_add] using hns j hj)
    (by simpa [Nat.zero_add] using hsync)
  refine ⟨?_, ?_, rfl, rfl, rfl⟩
  · simp [FinishSecret, hpoll]
  · intro describe2 sts2 hdesc2 hns2
    have htime := pollLoop_never_sync describe2 sts2 hdesc2 hns2 pollBudget 0
    constructor
    · simp [FinishSecret, htime]
    · simp [FinishSecret, htime, List.mem_append, List.mem_replicate]

/-- Witness for C8 at a concrete input: one replica region already
in-sync on the first poll, and a failing label removal; FinishSecret still
returns success. -/
theorem FinishSecret_order_witness :
    (FinishSecret (.ok (⟨"v1", [AWSCURRENT]⟩, []))
      (.ok (⟨"v2", [AWSPENDING]⟩, [])) none
      (fun _ => .ok (some [some ⟨"us-west-2", "InSync"⟩])) 1
      (some "removefail")).result = none := by
  have h := FinishSecret_order ⟨"v1", [AWSCURRENT]⟩ ⟨"v2", [AWSPENDING]⟩ [] []
    (fun _ => .ok (some [some ⟨"us-west-2", "InSync"⟩]))
    (fun _ => [some ⟨"us-west-2", "InSync"⟩]) 1 0 (some "removefail")
    (by decide) (fun j _ => rfl) (fun j hj => absurd hj (Nat.not_lt_zero j))
    (by decide)
  rw [h.1]

/-- C10: for every event carrying all three of ClientRequestToken,
SecretId and Step whose Step value is none of the four rotation steps,
Handler returns a nil response map and the sentinel ErrInvalidStep, and it
does so only after SecretSetter.Init and PasswordSetter.Init have both
been called (the call trace is exactly those two Init calls, in order), so
their side effects occur even for an invalid step; moreover, whatever the
Init results and user handler, an ErrInvalidStep return always has both
Init calls in its trace. -/
theorem Handler_invalid_step
    (event : EventMap) (userHandler : Option EventMap × Option String)
    (stepResult : String → Option String) (s : String)
    (htok : (event.lookup "ClientRequestToken").isSome = true)
    (hsid : (event.lookup "SecretId").isSome = true)
    (hstep : event.lookup "Step" = some s)
    (h1 : s ≠ "createSecret") (h2 : s ≠ "setSecret")
    (h3 : s ≠ "testSecret") (h4 : s ≠ "finishSecret") :
    Handler event userHandler none none stepResult =
      ((none, some .invalidStep), [.ssInit, .dbInit]) ∧
    (∀ (uh : Option EventMap × Option String) (ssIR dbIR : Option String)
        (sr : String → Option String),
      (Handler event uh ssIR dbIR sr).1.2 = some .invalidStep →
      (Handler event uh ssIR dbIR sr).2 = [.ssInit, .dbInit]) := by
  have hinv : InvokedBySecretsManager event = true := by
    simp [InvokedBySecretsManager, htok, hsid, hstep]
  constructor
  · simp only [Handler, hinv, if_true, hstep, Option.getD_some]
  · intro uh ssIR dbIR sr herr
    cases ssIR with
    | some e => simp [Handler, hinv] at herr
    | none =>
      cases dbIR with
      | some e => simp [Handler, hinv] at herr
      | none =>
        simp only [Handler, hinv, if_true, hstep, Option.getD_some] at herr ⊢

/-- Witness for C10 at a concrete input: a Secrets Manager event with
Step "rotateHarder"; Handler returns no map, ErrInvalidStep, and a call
trace of exactly the two Init calls. -/
theorem Handler_invalid_step_witness :
    Handler [("ClientRequestToken", "abc"), ("SecretId", "def"),
        ("Step", "rotateHarder")] (none, none) none none (fun _ => none) =
      ((none, some .invalidStep), [.ssInit, .dbInit]) := by
  exact (Handler_invalid_step [("ClientRequestToken", "abc"),
    ("SecretId", "def"), ("Step", "rotateHarder")] (none, none)
    (fun _ => none) "rotateHarder" rfl rfl rfl
    (by decide) (by decide) (by decide) (by decide)).1

end Rotator

end PasswordRotation
